import Mathlib

/-!
Verification of the scope-exit guard library (`scope_exit.hpp`).

The library provides three guard types in namespace `scope_exit_v1::detail`:

- `scope_guard<F>`: its destructor runs the stored action unconditionally;
- `scope_success_guard<F>`: stores `uncaught_count_ = std::uncaught_exceptions()`
  at construction and its destructor runs the action only if
  `std::uncaught_exceptions() == uncaught_count_` at destruction;
- `scope_failure_guard<F>`: same captured count, but the destructor runs the
  action only if `std::uncaught_exceptions() > uncaught_count_`.

All three destructors are declared `noexcept(false)`, so a failure raised by
the action escapes the destructor and propagates to the caller.

Embedding choices:

- the stored callable `F` is modelled as a state transformer that may raise a
  failure, `action : s -> Except e s`; running the action is applying it once
  to the current state, and a raised failure surfaces as `Except.error`;
- `std::uncaught_exceptions()` (the count of failures currently propagating,
  always nonnegative) is modelled as a `Nat` passed to each destructor as the
  value the host runtime would report at that moment;
- scope exit destroys the stack-resident guards of the scope in reverse
  declaration order (host stack-unwinding), modelled by `destroyAll` applied
  to the reversed declaration list;
- on a normal exit the count at destruction equals the count at declaration
  time; while a newly thrown failure propagates out of the scope the host
  reports one more than at declaration time (`exitCount`).
-/

namespace ScopeExitV1

universe u v

/-- Embeds `detail::scope_guard<F>`: holds only the action. -/
structure scope_guard (σ : Type u) (ε : Type v) where
  action : σ → Except ε σ

/-- Embeds `~scope_guard() noexcept(false) { action(); }`: the action runs
unconditionally; the destructor never reads the failure count, and a failure
raised by the action is returned (propagates), never caught. -/
def scope_guard.dtor (g : scope_guard σ ε) (_uncaught_exceptions : Nat) (s : σ) :
    Except ε σ :=
  g.action s

/-- Embeds `detail::scope_success_guard<F>`: the action plus
`uncaught_count_`, the value `std::uncaught_exceptions()` returned at
construction time. -/
structure scope_success_guard (σ : Type u) (ε : Type v) where
  action : σ → Except ε σ
  uncaught_count_ : Nat

/-- Embeds `~scope_success_guard() noexcept(false)`: runs the action iff
`std::uncaught_exceptions() == uncaught_count_` at destruction. -/
def scope_success_guard.dtor (g : scope_success_guard σ ε)
    (uncaught_exceptions : Nat) (s : σ) : Except ε σ :=
  if uncaught_exceptions = g.uncaught_count_ then g.action s else Except.ok s

/-- Embeds `detail::scope_failure_guard<F>`: the action plus
`uncaught_count_` captured at construction. -/
structure scope_failure_guard (σ : Type u) (ε : Type v) where
  action : σ → Except ε σ
  uncaught_count_ : Nat

/-- Embeds `~scope_failure_guard() noexcept(false)`: runs the action iff
`std::uncaught_exceptions() > uncaught_count_` at destruction. -/
def scope_failure_guard.dtor (g : scope_failure_guard σ ε)
    (uncaught_exceptions : Nat) (s : σ) : Except ε σ :=
  if g.uncaught_count_ < uncaught_exceptions then g.action s else Except.ok s

/-- A guard of any of the three kinds, as declared by `scope(exit)`,
`scope(success)` or `scope(failure)`. -/
inductive Guard (σ : Type u) (ε : Type v) where
  | uncond : scope_guard σ ε → Guard σ ε
  | success : scope_success_guard σ ε → Guard σ ε
  | failure : scope_failure_guard σ ε → Guard σ ε

/-- Destructor dispatch: each kind runs its own destructor from the source. -/
def Guard.dtor : Guard σ ε → Nat → σ → Except ε σ
  | .uncond g => g.dtor
  | .success g => g.dtor
  | .failure g => g.dtor

/-- Destroy a list of guards front to back (callers pass the declaration list
reversed, matching destruction order of stack-resident values), threading the
state; a failure raised by an action propagates out of the sequence. -/
def destroyAll : List (Guard σ ε) → Nat → σ → Except ε σ
  | [], _, s => Except.ok s
  | g :: rest, c, s => (g.dtor c s).bind (destroyAll rest c)

/-- The three declaration forms `scope(exit)` / `scope(success)` /
`scope(failure)`. -/
inductive GuardKind where
  | kexit
  | ksuccess
  | kfailure
deriving DecidableEq, BEq

/-- An action that only records that it ran, by appending its label to a
trace; it never raises a failure (`ε := Empty`). -/
def push (lbl : α) : List α → Except Empty (List α) :=
  fun s => Except.ok (s ++ [lbl])

/-- Declaring a guard of the given kind whose action pushes `lbl`, while the
host reports `c0` propagating failures: the two conditional kinds store `c0`
as their `uncaught_count_`. -/
def mkGuard (c0 : Nat) : GuardKind × α → Guard (List α) Empty
  | (.kexit, lbl) => .uncond ⟨push lbl⟩
  | (.ksuccess, lbl) => .success ⟨push lbl, c0⟩
  | (.kfailure, lbl) => .failure ⟨push lbl, c0⟩

/-- How the enclosing scope ends: normal completion, or a newly thrown
failure propagating out of it. -/
inductive ExitMode where
  | normal
  | failing
deriving DecidableEq

/-- The value of `std::uncaught_exceptions()` when the scope's guards are
destroyed: unchanged from declaration time on a normal exit, and one higher
while a failure newly thrown in the scope is propagating. -/
def exitCount : ExitMode → Nat → Nat
  | .normal, c0 => c0
  | .failing, c0 => c0 + 1

/-- Extract the result of a destruction sequence that cannot raise
(`ε := Empty`). -/
def okOr (d : σ) : Except Empty σ → σ
  | .ok s => s
  | .error e => e.elim

/-- Run one scope to completion: the guards in `decls` are declared in order
while the host reports `c0` propagating failures, then the scope ends in
`mode`; the stack-resident guards are destroyed in reverse declaration order
with the count the host reports at that moment. The result is the trace of
actions that ran, in execution order. -/
def runScope (decls : List (GuardKind × α)) (mode : ExitMode) (c0 : Nat) :
    List α :=
  okOr [] (destroyAll ((decls.map (mkGuard c0)).reverse) (exitCount mode c0) [])

/-- The gating predicate each destructor applies, read off the source:
unconditional always fires, success fires iff the count is unchanged, failure
fires iff the count strictly increased. -/
def guardFires : GuardKind → Nat → Nat → Bool
  | .kexit, _, _ => true
  | .ksuccess, c0, c1 => c1 == c0
  | .kfailure, c0, c1 => decide (c0 < c1)

@[simp]
theorem guardFires_kexit (c0 c1 : Nat) : guardFires .kexit c0 c1 = true := rfl

@[simp]
theorem guardFires_ksuccess (c0 c1 : Nat) :
    guardFires .ksuccess c0 c1 = (c1 == c0) := rfl

@[simp]
theorem guardFires_kfailure (c0 c1 : Nat) :
    guardFires .kfailure c0 c1 = decide (c0 < c1) := rfl

theorem destroyAll_push (decls : List (GuardKind × α)) (c0 c1 : Nat)
    (s : List α) :
    destroyAll (decls.map (mkGuard c0)) c1 s
      = Except.ok (s ++ (decls.filter (fun d => guardFires d.1 c0 c1)).map Prod.snd) := by
  induction decls generalizing s with
  | nil => simp [destroyAll]
  | cons d rest ih =>
    obtain ⟨k, a⟩ := d
    cases k with
    | kexit =>
      simp [destroyAll, mkGuard, Guard.dtor, scope_guard.dtor, push,
        Except.bind, ih]
    | ksuccess =>
      by_cases hc : c1 = c0
      · subst hc
        simp [destroyAll, mkGuard, Guard.dtor, scope_success_guard.dtor, push,
          Except.bind, ih]
      · simp [destroyAll, mkGuard, Guard.dtor, scope_success_guard.dtor, push,
          Except.bind, ih, hc]
    | kfailure =>
      by_cases hc : c0 < c1
      · simp [destroyAll, mkGuard, Guard.dtor, scope_failure_guard.dtor, push,
          Except.bind, ih, hc]
      · simp [destroyAll, mkGuard, Guard.dtor, scope_failure_guard.dtor, push,
          Except.bind, ih, hc]

theorem runScope_eq (decls : List (GuardKind × α)) (mode : ExitMode)
    (c0 : Nat) :
    runScope decls mode c0
      = ((decls.filter
            (fun d => guardFires d.1 c0 (exitCount mode c0))).map Prod.snd).reverse := by
  unfold runScope
  rw [show (decls.map (mkGuard c0)).reverse = decls.reverse.map (mkGuard c0) by
    simp [List.map_reverse]]
  rw [destroyAll_push]
  simp [okOr, List.filter_reverse, List.map_reverse]

/-- An event of the host's failure machinery: a failure starts propagating
(a throw), or a propagating failure is caught. -/
inductive ExnEvent where
  | thrown
  | caught

/-- The value of `std::uncaught_exceptions()` after a sequence of failure
events, starting from count `c`: a throw increments the count, catching a
propagating failure decrements it back. -/
def uncaughtAfter : Nat → List ExnEvent → Nat
  | c, [] => c
  | c, ExnEvent.thrown :: es => uncaughtAfter (c + 1) es
  | c, ExnEvent.caught :: es => uncaughtAfter (c - 1) es

/-- An action that raises failure `e` when invoked. -/
def throwAction (e : ε) : σ → Except ε σ :=
  fun _ => Except.error e

/-- The declaration form of a guard: which of the three C++ structs it is. -/
def Guard.kind : Guard σ ε → GuardKind
  | .uncond _ => .kexit
  | .success _ => .ksuccess
  | .failure _ => .kfailure

/-- The failure count a guard captured at construction; the unconditional
guard stores none and its destructor reads none, recorded here as 0. -/
def Guard.ctorCount : Guard σ ε → Nat
  | .uncond _ => 0
  | .success g => g.uncaught_count_
  | .failure g => g.uncaught_count_

/-- The stored action of a guard of any kind. -/
def Guard.theAction : Guard σ ε → σ → Except ε σ
  | .uncond g => g.action
  | .success g => g.action
  | .failure g => g.action

/-- C1: an action registered with the unconditional guard (`scope_guard`,
`scope(exit)`) is executed exactly once when the enclosing scope ends — its
destructor is `action()` with no condition — and for any scope in which it is
declared, in any position, the trace of a scope exit contains its label
exactly once at its LIFO position, whether the scope ends normally or by a
propagating failure. -/
theorem unconditional_action_runs_exactly_once_any_exit
    (act : σ → Except ε σ) (c1 : Nat) (s0 : σ)
    (pre post : List (GuardKind × α)) (a : α) (mode : ExitMode) (c0 : Nat) :
    (scope_guard.mk act).dtor c1 s0 = act s0
    ∧ runScope (pre ++ (GuardKind.kexit, a) :: post) mode c0
        = runScope post mode c0 ++ a :: runScope pre mode c0 := by
  constructor
  · rfl
  · simp [runScope_eq, List.filter_append, List.map_append, List.reverse_append]

/-- C2: a success-gated guard (`scope_success_guard`, `scope(success)`) runs
its action at destruction iff the failure count observed at destruction
equals the count captured at construction; equivalently, in a scope it fires
iff the scope exits normally. -/
theorem success_guard_fires_iff_count_unchanged
    (a : α) (c0 c1 : Nat) (s : List α) (mode : ExitMode) :
    ((scope_success_guard.mk (push a) c0).dtor c1 s = Except.ok (s ++ [a])
        ↔ c1 = c0)
    ∧ (runScope [(GuardKind.ksuccess, a)] mode c0 = [a]
        ↔ mode = ExitMode.normal) := by
  constructor
  · constructor
    · intro h
      by_contra hc
      simp [scope_success_guard.dtor, hc] at h
    · intro h
      simp [scope_success_guard.dtor, h, push]
  · cases mode <;> simp [runScope_eq, exitCount]

/-- C3: a failure-gated guard (`scope_failure_guard`, `scope(failure)`) runs
its action at destruction iff the failure count at destruction is strictly
greater than the count captured at construction; in a scope it never fires on
a normal exit and does fire when a newly thrown failure is propagating. -/
theorem failure_guard_fires_iff_count_increased
    (a : α) (c0 c1 : Nat) (s : List α) :
    ((scope_failure_guard.mk (push a) c0).dtor c1 s = Except.ok (s ++ [a])
        ↔ c0 < c1)
    ∧ runScope [(GuardKind.kfailure, a)] ExitMode.normal c0 = []
    ∧ runScope [(GuardKind.kfailure, a)] ExitMode.failing c0 = [a] := by
  refine ⟨⟨?_, ?_⟩, ?_, ?_⟩
  · intro h
    by_contra hc
    simp [scope_failure_guard.dtor, hc] at h
  · intro h
    simp [scope_failure_guard.dtor, h, push]
  · simp [runScope_eq, exitCount]
  · simp [runScope_eq, exitCount]

/-- C4: N unconditional guards declared in one scope fire in exactly the
reverse of declaration order, on normal and on failing exits alike; in
particular an earlier-declared guard never fires before a later-declared
one. -/
theorem unconditional_guards_fire_in_reverse_declaration_order
    (labels : List α) (mode : ExitMode) (c0 : Nat) :
    runScope (labels.map (fun a => (GuardKind.kexit, a))) mode c0
      = labels.reverse := by
  simp [runScope_eq, List.filter_map, Function.comp]

theorem guardFires_normal (k : GuardKind) (c0 : Nat) :
    guardFires k c0 (exitCount ExitMode.normal c0) = (k != GuardKind.kfailure) := by
  cases k with
  | kexit => rfl
  | ksuccess =>
    show (c0 == c0) = true
    exact beq_self_eq_true c0
  | kfailure =>
    show decide (c0 < c0) = false
    simp

theorem guardFires_failing (k : GuardKind) (c0 : Nat) :
    guardFires k c0 (exitCount ExitMode.failing c0) = (k != GuardKind.ksuccess) := by
  cases k with
  | kexit => rfl
  | ksuccess =>
    show (c0 + 1 == c0) = false
    simp
  | kfailure =>
    show decide (c0 < c0 + 1) = true
    simp

/-- C5: with all three kinds in one scope, a normal exit runs exactly the
non-failure guards and a failing exit exactly the non-success guards, each in
reverse declaration order; concretely, G1(exit, 1), G2(success, 2),
G3(failure, 3) record [2, 1] on normal exit and [3, 1] on failing exit. -/
theorem mixed_guards_selection_and_order
    (decls : List (GuardKind × α)) (c0 : Nat) :
    (runScope decls ExitMode.normal c0
        = ((decls.filter (fun d => d.1 != GuardKind.kfailure)).map Prod.snd).reverse)
    ∧ (runScope decls ExitMode.failing c0
        = ((decls.filter (fun d => d.1 != GuardKind.ksuccess)).map Prod.snd).reverse)
    ∧ runScope [(GuardKind.kexit, (1 : Nat)), (GuardKind.ksuccess, 2),
        (GuardKind.kfailure, 3)] ExitMode.normal c0 = [2, 1]
    ∧ runScope [(GuardKind.kexit, (1 : Nat)), (GuardKind.ksuccess, 2),
        (GuardKind.kfailure, 3)] ExitMode.failing c0 = [3, 1] := by
  refine ⟨?_, ?_, ?_, ?_⟩
  · simp only [runScope_eq, guardFires_normal]
  · simp only [runScope_eq, guardFires_failing]
  · simp [runScope_eq, exitCount]
  · simp [runScope_eq, exitCount]

/-- C6: a success-gated guard constructed while a failure is already
propagating (count positive) still fires when destruction observes that same
count; and a failure thrown and caught entirely during the guard's lifetime
returns the counter to its prior value, so the guard still fires — no false
suppression in either case. -/
theorem success_guard_no_false_suppression (c0 c : Nat) (h : 0 < c0)
    (a : α) (s : List α) :
    (scope_success_guard.mk (push a) c0).dtor c0 s = Except.ok (s ++ [a])
    ∧ uncaughtAfter c [ExnEvent.thrown, ExnEvent.caught] = c
    ∧ (scope_success_guard.mk (push a) c).dtor
        (uncaughtAfter c [ExnEvent.thrown, ExnEvent.caught]) s
        = Except.ok (s ++ [a]) := by
  refine ⟨?_, ?_, ?_⟩ <;>
    simp [scope_success_guard.dtor, push, uncaughtAfter]

/-- Witness for C6 at construction count 1 (a failure already propagating)
and at count 0 with a throw/catch pair during the lifetime. -/
theorem success_guard_no_false_suppression_witness :
    (scope_success_guard.mk (push (0 : Nat)) 1).dtor 1 [] = Except.ok [0]
    ∧ uncaughtAfter 0 [ExnEvent.thrown, ExnEvent.caught] = 0
    ∧ (scope_success_guard.mk (push (0 : Nat)) 0).dtor
        (uncaughtAfter 0 [ExnEvent.thrown, ExnEvent.caught]) []
        = Except.ok [0] :=
  success_guard_no_false_suppression 1 0 (by decide) 0 []

/-- C7: a failure raised by the deferred action during firing escapes the
destructor — all three destructors are `noexcept(false)` and catch nothing —
and propagates out of the whole destruction sequence to the caller. -/
theorem action_failure_propagates (e : ε) (s : σ) (c0 : Nat)
    (rest : List (Guard σ ε)) :
    (scope_guard.mk (throwAction e)).dtor c0 s = Except.error e
    ∧ (scope_success_guard.mk (throwAction e) c0).dtor c0 s = Except.error e
    ∧ (scope_failure_guard.mk (throwAction e) c0).dtor (c0 + 1) s
        = Except.error e
    ∧ destroyAll (Guard.uncond (scope_guard.mk (throwAction e)) :: rest) c0 s
        = Except.error e := by
  refine ⟨rfl, ?_, ?_, ?_⟩
  · simp [scope_success_guard.dtor, throwAction]
  · simp [scope_failure_guard.dtor, throwAction, Nat.lt_succ_self]
  · simp [destroyAll, Guard.dtor, scope_guard.dtor, throwAction, Except.bind]

/-- C8: every guard instance, of any kind, invokes its action exactly 0 or 1
times at destruction: the trace it leaves is either the fired trace (one new
entry) or the untouched skipped trace, with no other outcome. -/
theorem guard_fires_at_most_once (a : α) (c0 c1 : Nat) (s : List α) :
    (scope_guard.mk (push a)).dtor c1 s = Except.ok (s ++ [a])
    ∧ ((scope_success_guard.mk (push a) c0).dtor c1 s = Except.ok (s ++ [a])
        ∨ (scope_success_guard.mk (push a) c0).dtor c1 s = Except.ok s)
    ∧ ((scope_failure_guard.mk (push a) c0).dtor c1 s = Except.ok (s ++ [a])
        ∨ (scope_failure_guard.mk (push a) c0).dtor c1 s = Except.ok s) := by
  refine ⟨rfl, ?_, ?_⟩
  · by_cases hc : c1 = c0
    · left
      simp [scope_success_guard.dtor, hc, push]
    · right
      simp [scope_success_guard.dtor, hc]
  · by_cases hc : c0 < c1
    · left
      simp [scope_failure_guard.dtor, hc, push]
    · right
      simp [scope_failure_guard.dtor, hc]

/-- C9: when the count at destruction is strictly below the count captured at
construction (a failure that was already propagating at creation has since
been caught), neither the success-gated nor the failure-gated action fires. -/
theorem count_decrease_suppresses_gated_guards (c0 c1 : Nat) (h : c1 < c0)
    (a : α) (s : List α) :
    (scope_success_guard.mk (push a) c0).dtor c1 s = Except.ok s
    ∧ (scope_failure_guard.mk (push a) c0).dtor c1 s = Except.ok s := by
  constructor
  · simp [scope_success_guard.dtor, Nat.ne_of_lt h]
  · simp [scope_failure_guard.dtor, Nat.lt_asymm h]

/-- Witness for C9: construction count 1, destruction count 0. -/
theorem count_decrease_suppresses_gated_guards_witness :
    (scope_success_guard.mk (push (0 : Nat)) 1).dtor 0 [] = Except.ok []
    ∧ (scope_failure_guard.mk (push (0 : Nat)) 1).dtor 0 [] = Except.ok [] :=
  count_decrease_suppresses_gated_guards 1 0 (by decide) 0 []

/-- C10: a guard's destructor factors through the gate `guardFires`, which
reads only the guard's kind and the two counts — never the state or the
failure payload — so two guards of the same kind with the same captured
count, over arbitrary different state and failure types, make the same
fire/skip decision at the same destruction count. -/
theorem fire_decision_depends_only_on_counts {σ2 : Type} {ε2 : Type}
    (g : Guard σ ε) (g2 : Guard σ2 ε2) (c1 : Nat) (s : σ)
    (hk : g.kind = g2.kind) (hc : g.ctorCount = g2.ctorCount) :
    g.dtor c1 s
      = (if guardFires g.kind g.ctorCount c1 then g.theAction s else Except.ok s)
    ∧ guardFires g.kind g.ctorCount c1 = guardFires g2.kind g2.ctorCount c1 := by
  constructor
  · cases g with
    | uncond g =>
      simp [Guard.dtor, Guard.kind, Guard.ctorCount, Guard.theAction,
        scope_guard.dtor]
    | success g =>
      by_cases h : c1 = g.uncaught_count_ <;>
        simp [Guard.dtor, Guard.kind, Guard.ctorCount, Guard.theAction,
          scope_success_guard.dtor, h]
    | failure g =>
      by_cases h : g.uncaught_count_ < c1 <;>
        simp [Guard.dtor, Guard.kind, Guard.ctorCount, Guard.theAction,
          scope_failure_guard.dtor, h]
  · rw [hk, hc]

/-- Witness for C10: two success guards with captured count 2, one recording
into a Nat trace without failures, the other over Bool state with String
failures, observed at destruction count 2. -/
theorem fire_decision_depends_only_on_counts_witness :
    guardFires
        (Guard.success (⟨push 5, 2⟩ : scope_success_guard (List Nat) Empty)).kind
        (Guard.success (⟨push 5, 2⟩ : scope_success_guard (List Nat) Empty)).ctorCount 2
      = guardFires
        (Guard.success (⟨throwAction "boom", 2⟩ : scope_success_guard Bool String)).kind
        (Guard.success (⟨throwAction "boom", 2⟩ : scope_success_guard Bool String)).ctorCount 2 :=
  (fire_decision_depends_only_on_counts
    (Guard.success (⟨push 5, 2⟩ : scope_success_guard (List Nat) Empty))
    (Guard.success (⟨throwAction "boom", 2⟩ : scope_success_guard Bool String))
    2 [] rfl rfl).2

end ScopeExitV1
